import Mathlib

/-!
Verification of the antenna-tracker core (`src/module_aat.cpp`).

The C++ core is shallowly embedded: 32-bit unsigned arithmetic is `Nat`
with explicit reduction modulo `2^32`, `int32_t` intermediates are `Int`
with C truncated division (`Int.tdiv`) and remainder (`Int.tmod`), and the
floating-point geodesy block (`calcDistAndAzimuth` / `calcElevation`) is an
oracle input to `processGps`: the tracker state machine is verified for
every value that block could produce.

The private field declarations of `AatModule` (its header) and the config
accessors are not part of the provided sources; their shapes are modelled
from the spec where noted.
-/

/-- The modulus of 32-bit unsigned arithmetic. -/
def U32 : Nat := 4294967296

/-- Wrap-around subtraction of two timestamps as C computes `a - b` on
`uint32_t` operands. -/
def usub32 (a b : Nat) : Nat := (a % U32 + (U32 - b % U32)) % U32

/-- Reinterpretation of a `uint32_t` value as `int32_t`, as the C cast
`(int32_t)x` behaves on two-complement hardware. -/
def toInt32 (n : Nat) : Int :=
  if n % U32 < 2147483648 then ((n % U32 : Nat) : Int)
  else ((n % U32 : Nat) : Int) - (U32 : Int)

/-- Arduino `constrain` on unsigned values. -/
def constrainN (x lo hi : Nat) : Nat := if x < lo then lo else if hi < x then hi else x

/-- Arduino `constrain` on signed values. -/
def constrainI (x lo hi : Int) : Int := if x < lo then lo else if hi < x then hi else x

/-- Arduino integer `map`: linear interpolation
`(x - inMin) * (outMax - outMin) / (inMax - inMin) + outMin` with C
truncated division. -/
def amap (x inMin inMax outMin outMax : Int) : Int :=
  Int.tdiv ((x - inMin) * (outMax - outMin)) (inMax - inMin) + outMin

/-- Modelled from the spec: the configuration collaborator (`config.GetAat*`
accessors, declared outside the provided sources). Per spec section 6 it
supplies the minimum satellite count to latch home, per-axis actuator
low/high bounds in microseconds, the smoothing factor and the
azimuth-projection enable flag, all read-only. -/
structure AatConfig where
  satelliteHomeMin : Nat
  servoLowAzim : Nat
  servoHighAzim : Nat
  servoLowElev : Nat
  servoHighElev : Nat
  servoSmooth : Nat
  project : Bool
deriving DecidableEq

/-- The `_gpsLast` struct of `AatModule`: the single-slot GPS fix buffer. -/
structure GpsData where
  lat : Int
  lon : Int
  altitude : Int
  speed : Nat
  heading : Nat
  satcnt : Nat
  lastUpdateMs : Nat
  updated : Bool
deriving DecidableEq

/-- The tracking-relevant fields of `AatModule`. Modelled from the spec
where the header is missing: `homeSet` realizes the one-way
Unset-to-Set home latch (`isHomeSet`), and `targetAzim` holds the degree
value in [0,360) of the spec data model; the projection arithmetic on it
follows the signed `int32_t` cast visible in the source. -/
structure AatState where
  gps : GpsData
  homeSet : Bool
  homeLat : Int
  homeLon : Int
  homeAlt : Int
  gpsAvgUpdateInterval : Nat
  lastServoUpdateMs : Nat
  targetDistance : Nat
  targetAzim : Nat
  targetElev : Nat
  azimMsPerDegree : Int
  servoPosAzim : Int
  servoPosElev : Int
deriving DecidableEq

/-- Outputs of the double-precision geodesy block for one fix: the
`uint32_t` distance and raw azimuth written by `calcDistAndAzimuth` (the
azimuth before its final reduction `% 360`) and the `int32_t` elevation
returned by `calcElevation`. `processGps` takes them as an oracle because
they are computed in floating point. -/
structure GeoResult where
  dist : Nat
  azimRaw : Nat
  elevRaw : Int
deriving DecidableEq

/-- `AatModule::AatModule` followed by `AatModule::Init`: every tracking
field zeroed, then each servo position preset to the midpoint of its
configured bounds, stored at times-100 precision. -/
def initState (cfg : AatConfig) : AatState :=
  { gps := { lat := 0, lon := 0, altitude := 0, speed := 0, heading := 0,
             satcnt := 0, lastUpdateMs := 0, updated := false }
    homeSet := false, homeLat := 0, homeLon := 0, homeAlt := 0
    gpsAvgUpdateInterval := 0, lastServoUpdateMs := 0
    targetDistance := 0, targetAzim := 0, targetElev := 0
    azimMsPerDegree := 0
    servoPosAzim := ((cfg.servoLowAzim + cfg.servoHighAzim) / 2 * 100 : Nat)
    servoPosElev := ((cfg.servoLowElev + cfg.servoHighElev) / 2 * 100 : Nat) }

/-- `AatModule::SendGpsTelemetry`: overwrite the fix buffer and raise the
fresh flag. `altRaw` is the 16-bit altitude field; the stored altitude is
offset by -1000 m. -/
def sendGpsTelemetry (lat lon : Int) (speed heading altRaw satcnt : Nat)
    (st : AatState) : AatState :=
  { st with gps :=
    { st.gps with
      lat := lat
      lon := lon
      speed := speed
      heading := heading
      altitude := (altRaw : Int) - 1000
      satcnt := satcnt
      updated := true } }

/-- `AatModule::updateGpsInterval`: low-pass filter
`avg += ((int32_t)(interval * 100) - (int32_t)avg) / 4` in 32-bit
arithmetic, then clamped to the 1,000,000 (hundredths of ms) ceiling by an
unsigned comparison. -/
def updateGpsInterval (avg interval : Nat) : Nat :=
  let sample : Nat := interval * 100 % U32
  let raw : Int := (avg : Int) + Int.tdiv (toInt32 sample - toInt32 avg) 4
  let u : Nat := (raw % (U32 : Int)).toNat
  if 1000000 < u then 1000000 else u

/-- `AatModule::calcGpsIntervalPct`:
`constrain((now - lastUpdateMs) * 10000 / avg, 0, 100)` in `uint32_t`
arithmetic when an interval estimate exists, else 0. -/
def calcGpsIntervalPct (st : AatState) (now : Nat) : Nat :=
  if st.gpsAvgUpdateInterval ≠ 0 then
    constrainN (usub32 now st.gps.lastUpdateMs * 10000 % U32 / st.gpsAvgUpdateInterval) 0 100
  else 0

/-- The azimuth change `(azimuth - _targetAzim + 540) % 360 - 180` of
`processGps`: computed on `uint32_t` operands, then the final `- 180`
lands in `int32_t`. -/
def azimuthDelta (newAzim oldAzim : Nat) : Int :=
  (((newAzim + 540 + (U32 - oldAzim % U32)) % U32 % 360 : Nat) : Int) - 180

/-- `AatModule::processGps`: consume a fresh fix, stamp the processing
time, latch home on the first fix with enough satellites, and otherwise
run the geodesy block (oracle `geo`), the interval filter and the
angular-rate estimate, committing the new target vector. -/
def processGps (cfg : AatConfig) (geo : GeoResult) (now : Nat)
    (st : AatState) : AatState :=
  if st.gps.updated = false then st else
  let interval : Nat := usub32 now st.gps.lastUpdateMs
  let st1 : AatState :=
    { st with gps := { st.gps with updated := false, lastUpdateMs := now % U32 } }
  if st.homeSet = false ∧ st.gps.satcnt < cfg.satelliteHomeMin then st1 else
  let didSetHome : Bool := !st.homeSet
  let st2 : AatState :=
    if didSetHome then
      { st1 with homeSet := true, homeLat := st.gps.lat, homeLon := st.gps.lon,
                 homeAlt := st.gps.altitude }
    else st1
  let azimuth : Nat := geo.azimRaw % 360
  let distance : Nat := geo.dist
  let elevation : Nat := (constrainI geo.elevRaw 0 90).toNat
  let st3 : AatState :=
    if didSetHome then st2 else
    let azimDelta : Int := azimuthDelta azimuth st.targetAzim
    { st2 with
      gpsAvgUpdateInterval := updateGpsInterval st2.gpsAvgUpdateInterval interval
      azimMsPerDegree :=
        if azimDelta = 0 then 0 else Int.tdiv (toInt32 interval) azimDelta }
  { st3 with targetDistance := distance, targetElev := elevation, targetAzim := azimuth }

/-- `AatModule::calcProjectedAzim`: dead-reckoning projection of the
azimuth. Active only when enabled, an interval estimate and a nonzero rate
exist, and the target is more than 3 m away; the elapsed time is clamped
to one average interval and the rate magnitude floor-limited to
10 ms/degree before the signed projection `(elapsed / rate + azim + 360) % 360`. -/
def calcProjectedAzim (cfg : AatConfig) (st : AatState) (now : Nat) : Int :=
  if cfg.project = true ∧ st.gpsAvgUpdateInterval ≠ 0 ∧ st.azimMsPerDegree ≠ 0 ∧
      3 < st.targetDistance then
    let elapsed : Nat :=
      constrainN (usub32 now st.gps.lastUpdateMs) 0 (st.gpsAvgUpdateInterval / 100)
    let azimMsPDLimited : Int :=
      if -10 < st.azimMsPerDegree ∧ st.azimMsPerDegree < 10 then
        if 0 < st.azimMsPerDegree then 10 else -10
      else st.azimMsPerDegree
    Int.tmod (Int.tdiv (toInt32 elapsed) azimMsPDLimited + (st.targetAzim : Int) + 360) 360
  else (st.targetAzim : Int)

/-- One axis of the update policy in `AatModule::servoUpdate`: snap when
the requested move exceeds 80 percent of the configured travel, otherwise
advance by `diff / (smooth + 1)`. -/
def servoAxisUpdate (low high smooth : Nat) (cur newPos : Int) : Int :=
  let range : Int := 100 * ((high : Int) - (low : Int))
  let diff : Int := newPos - cur
  if 80 < Int.tdiv ((diff.natAbs : Int) * 100) range then newPos
  else cur + Int.tdiv diff ((smooth : Int) + 1)

/-- `AatModule::servoUpdate`: rate-limited to one run per 20 ms; maps the
projected azimuth (offset by 180 degrees for the 2:1 gearing) and the
elevation linearly into the configured microsecond bounds at times-100
precision, then applies the snap/smooth policy per axis. -/
def servoUpdate (cfg : AatConfig) (st : AatState) (now : Nat) : AatState :=
  if usub32 now st.lastServoUpdateMs < 20 then st else
  let projectedAzim : Int := calcProjectedAzim cfg st now
  let transformedAzim : Int := Int.tmod (projectedAzim + 180) 360
  let transformedElev : Int := (st.targetElev : Int)
  let newAzim : Int :=
    100 * amap transformedAzim 0 360 (cfg.servoLowAzim : Int) (cfg.servoHighAzim : Int)
  let newElev : Int :=
    100 * amap transformedElev 0 90 (cfg.servoLowElev : Int) (cfg.servoHighElev : Int)
  { st with lastServoUpdateMs := now % U32
            servoPosAzim := servoAxisUpdate cfg.servoLowAzim cfg.servoHighAzim
              cfg.servoSmooth st.servoPosAzim newAzim
            servoPosElev := servoAxisUpdate cfg.servoLowElev cfg.servoHighElev
              cfg.servoSmooth st.servoPosElev newElev }

/-- The states the tracking core can actually be in: the initialized state
and everything produced from it by telemetry arrival, fix processing (for
any output of the floating-point geodesy block) and servo ticks, at
arbitrary times. -/
inductive Reachable (cfg : AatConfig) : AatState → Prop
  | init : Reachable cfg (initState cfg)
  | telemetry (st : AatState) (lat lon : Int) (speed heading altRaw satcnt : Nat) :
      Reachable cfg st →
      Reachable cfg (sendGpsTelemetry lat lon speed heading altRaw satcnt st)
  | gps (st : AatState) (geo : GeoResult) (now : Nat) :
      Reachable cfg st → Reachable cfg (processGps cfg geo now st)
  | servo (st : AatState) (now : Nat) :
      Reachable cfg st → Reachable cfg (servoUpdate cfg st now)

example : usub32 1000 0 = 1000 := by decide
example : usub32 5 4294967290 = 11 := by decide
example : toInt32 4294967295 = -1 := by decide
example : amap 180 0 360 1000 2000 = 1500 := by decide
example : Int.tdiv (-5) 2 = -2 := by decide
example : Int.tmod (-435) 360 = -75 := by decide

/-- Truncated remainder of a negated dividend is the negated remainder. -/
theorem tmod_neg_dividend (x b : Int) : Int.tmod (-x) b = -Int.tmod x b := by
  rw [Int.tmod_def, Int.tmod_def, Int.neg_tdiv]
  ring

/-- The truncated remainder by 360 always lies strictly between -360 and 360. -/
theorem tmod360_bounds (a : Int) : -360 < Int.tmod a 360 ∧ Int.tmod a 360 < 360 := by
  rcases le_or_lt 0 a with h | h
  · exact ⟨lt_of_lt_of_le (by decide) (Int.tmod_nonneg 360 h),
      Int.tmod_lt_of_pos a (by decide)⟩
  · have hx : (0 : Int) ≤ -a := by omega
    have h1 := Int.tmod_nonneg (a := -a) 360 hx
    have h2 := Int.tmod_lt_of_pos (-a) (b := 360) (by decide)
    have h3 : Int.tmod a 360 = -Int.tmod (-a) 360 := by
      rw [← tmod_neg_dividend, neg_neg]
    omega

/-- A nonnegative dividend keeps the truncated remainder by 360 in [0, 360). -/
theorem tmod360_nonneg_bounds (a : Int) (ha : 0 ≤ a) :
    0 ≤ Int.tmod a 360 ∧ Int.tmod a 360 < 360 :=
  ⟨Int.tmod_nonneg 360 ha, Int.tmod_lt_of_pos a (by decide)⟩

/-- Truncated division by a positive divisor moves a nonnegative dividend
toward zero without overshooting. -/
theorem tdiv_between_of_nonneg {a k : Int} (ha : 0 ≤ a) (hk : 0 < k) :
    0 ≤ Int.tdiv a k ∧ Int.tdiv a k ≤ a := by
  refine ⟨Int.tdiv_nonneg ha hk.le, ?_⟩
  rw [Int.tdiv_eq_ediv ha hk.le]
  exact Int.ediv_le_self k ha

/-- Truncated division by a positive divisor moves a nonpositive dividend
toward zero without overshooting. -/
theorem tdiv_between_of_nonpos {a k : Int} (ha : a ≤ 0) (hk : 0 < k) :
    a ≤ Int.tdiv a k ∧ Int.tdiv a k ≤ 0 := by
  have hx : (0 : Int) ≤ -a := by omega
  have h1 := tdiv_between_of_nonneg hx hk
  have h2 : Int.tdiv a k = -Int.tdiv (-a) k := by
    rw [← Int.neg_tdiv, neg_neg]
  omega

/-- The interval filter output never exceeds the 1,000,000 ceiling. -/
theorem updateGpsInterval_le (avg interval : Nat) :
    updateGpsInterval avg interval ≤ 1000000 := by
  unfold updateGpsInterval
  dsimp only
  split <;> omega

/-- A call on a consumed fix buffer leaves the state untouched. -/
theorem processGps_stale (cfg : AatConfig) (geo : GeoResult) (now : Nat)
    (st : AatState) (h : st.gps.updated = false) :
    processGps cfg geo now st = st := by
  unfold processGps
  rw [if_pos h]

/-- A fresh fix that arrives before home is set with too few satellites
only consumes the buffer and stamps the processing time. -/
theorem processGps_rejected (cfg : AatConfig) (geo : GeoResult) (now : Nat)
    (st : AatState) (hu : st.gps.updated = true) (hh : st.homeSet = false)
    (hs : st.gps.satcnt < cfg.satelliteHomeMin) :
    processGps cfg geo now st =
      { st with gps := { st.gps with updated := false, lastUpdateMs := now % U32 } } := by
  unfold processGps
  rw [if_neg (by simp [hu])]
  dsimp only
  rw [if_pos ⟨hh, hs⟩]

/-- A fresh fix with enough satellites while home is unset latches home and
commits the target vector, leaving the interval and rate estimates alone. -/
theorem processGps_latch (cfg : AatConfig) (geo : GeoResult) (now : Nat)
    (st : AatState) (hu : st.gps.updated = true) (hh : st.homeSet = false)
    (hs : cfg.satelliteHomeMin ≤ st.gps.satcnt) :
    processGps cfg geo now st =
      { st with
        gps := { st.gps with updated := false, lastUpdateMs := now % U32 }
        homeSet := true
        homeLat := st.gps.lat
        homeLon := st.gps.lon
        homeAlt := st.gps.altitude
        targetDistance := geo.dist
        targetElev := (constrainI geo.elevRaw 0 90).toNat
        targetAzim := geo.azimRaw % 360 } := by
  unfold processGps
  rw [if_neg (by simp [hu])]
  dsimp only
  rw [if_neg (by rw [hh]; simp; omega), hh]
  rfl

/-- A fresh fix once home is set updates the interval filter and the
angular-rate estimate and commits the target vector; home is untouched. -/
theorem processGps_track (cfg : AatConfig) (geo : GeoResult) (now : Nat)
    (st : AatState) (hu : st.gps.updated = true) (hh : st.homeSet = true) :
    processGps cfg geo now st =
      { st with
        gps := { st.gps with updated := false, lastUpdateMs := now % U32 }
        gpsAvgUpdateInterval :=
          updateGpsInterval st.gpsAvgUpdateInterval (usub32 now st.gps.lastUpdateMs)
        azimMsPerDegree :=
          if azimuthDelta (geo.azimRaw % 360) st.targetAzim = 0 then 0
          else Int.tdiv (toInt32 (usub32 now st.gps.lastUpdateMs))
            (azimuthDelta (geo.azimRaw % 360) st.targetAzim)
        targetDistance := geo.dist
        targetElev := (constrainI geo.elevRaw 0 90).toNat
        targetAzim := geo.azimRaw % 360 } := by
  unfold processGps
  rw [if_neg (by simp [hu])]
  dsimp only
  rw [if_neg (by rw [hh]; simp), hh]
  rfl

/-- A servo tick within 20 ms of the previous one does nothing. -/
theorem servoUpdate_gated (cfg : AatConfig) (st : AatState) (now : Nat)
    (h : usub32 now st.lastServoUpdateMs < 20) :
    servoUpdate cfg st now = st := by
  unfold servoUpdate
  rw [if_pos h]

/-- An accepted servo tick stamps its time and moves both axes by the
snap/smooth policy toward the mapped targets. -/
theorem servoUpdate_run (cfg : AatConfig) (st : AatState) (now : Nat)
    (h : ¬usub32 now st.lastServoUpdateMs < 20) :
    servoUpdate cfg st now =
      { st with
        lastServoUpdateMs := now % U32
        servoPosAzim := servoAxisUpdate cfg.servoLowAzim cfg.servoHighAzim
          cfg.servoSmooth st.servoPosAzim
          (100 * amap (Int.tmod (calcProjectedAzim cfg st now + 180) 360) 0 360
            (cfg.servoLowAzim : Int) (cfg.servoHighAzim : Int))
        servoPosElev := servoAxisUpdate cfg.servoLowElev cfg.servoHighElev
          cfg.servoSmooth st.servoPosElev
          (100 * amap (st.targetElev : Int) 0 90
            (cfg.servoLowElev : Int) (cfg.servoHighElev : Int)) } := by
  unfold servoUpdate
  rw [if_neg h]

/-- The elevation stored by `processGps` is a clamped `uint8_t` value. -/
theorem constrainI_toNat_le (x : Int) : (constrainI x 0 90).toNat ≤ 90 := by
  unfold constrainI
  split_ifs <;> omega

/-- Structural bounds every reachable state satisfies: the committed
azimuth is a normalized degree value, the elevation is clamped, and the
average interval respects its ceiling. -/
def CoreInv (st : AatState) : Prop :=
  st.targetAzim < 360 ∧ st.targetElev ≤ 90 ∧ st.gpsAvgUpdateInterval ≤ 1000000

/-- Every reachable state satisfies the structural bounds. -/
theorem reachable_coreInv (cfg : AatConfig) (st : AatState)
    (h : Reachable cfg st) : CoreInv st := by
  induction h with
  | init =>
      refine ⟨?_, ?_, ?_⟩ <;> simp [initState]
  | telemetry st lat lon speed heading altRaw satcnt _ ih => exact ih
  | gps st geo now _ ih =>
      by_cases hu : st.gps.updated = false
      · rw [processGps_stale cfg geo now st hu]
        exact ih
      · have hu2 : st.gps.updated = true := by
          revert hu; cases st.gps.updated <;> simp
        by_cases hh : st.homeSet = false
        · by_cases hs : st.gps.satcnt < cfg.satelliteHomeMin
          · rw [processGps_rejected cfg geo now st hu2 hh hs]
            exact ih
          · rw [processGps_latch cfg geo now st hu2 hh (by omega)]
            exact ⟨Nat.mod_lt _ (by decide), constrainI_toNat_le _, ih.2.2⟩
        · have hh2 : st.homeSet = true := by
            revert hh; cases st.homeSet <;> simp
          rw [processGps_track cfg geo now st hu2 hh2]
          exact ⟨Nat.mod_lt _ (by decide), constrainI_toNat_le _,
            updateGpsInterval_le _ _⟩
  | servo st now _ ih =>
      by_cases hg : usub32 now st.lastServoUpdateMs < 20
      · rw [servoUpdate_gated cfg st now hg]
        exact ih
      · rw [servoUpdate_run cfg st now hg]
        exact ih

/-- `constrain` with a zero lower bound never exceeds its upper bound. -/
theorem constrainN_le (x hi : Nat) : constrainN x 0 hi ≤ hi := by
  unfold constrainN
  split_ifs <;> omega

/-- The `int32_t` cast is the identity on small values. -/
theorem toInt32_small {n : Nat} (h : n < 2147483648) : toInt32 n = (n : Int) := by
  have hU : U32 = 4294967296 := rfl
  unfold toInt32
  rw [Nat.mod_eq_of_lt (by omega)]
  rw [if_pos h]

/-- When any projection precondition fails the projector returns the
committed azimuth. -/
theorem calcProjectedAzim_inactive (cfg : AatConfig) (st : AatState) (now : Nat)
    (h : ¬(cfg.project = true ∧ st.gpsAvgUpdateInterval ≠ 0 ∧
      st.azimMsPerDegree ≠ 0 ∧ 3 < st.targetDistance)) :
    calcProjectedAzim cfg st now = (st.targetAzim : Int) := by
  unfold calcProjectedAzim
  rw [if_neg h]

/-- The active-branch formula of the projector. -/
theorem calcProjectedAzim_active (cfg : AatConfig) (st : AatState) (now : Nat)
    (hp : cfg.project = true) (ha : st.gpsAvgUpdateInterval ≠ 0)
    (hr : st.azimMsPerDegree ≠ 0) (hd : 3 < st.targetDistance) :
    calcProjectedAzim cfg st now =
      Int.tmod (Int.tdiv
        (toInt32 (constrainN (usub32 now st.gps.lastUpdateMs) 0
          (st.gpsAvgUpdateInterval / 100)))
        (if -10 < st.azimMsPerDegree ∧ st.azimMsPerDegree < 10 then
          if 0 < st.azimMsPerDegree then 10 else -10
        else st.azimMsPerDegree)
        + (st.targetAzim : Int) + 360) 360 := by
  unfold calcProjectedAzim
  rw [if_pos ⟨hp, ha, hr, hd⟩]

/-- Configuration used by the concrete scenarios: one satellite suffices to
latch home, both servos span 1000 to 2000 microseconds with no smoothing,
and azimuth projection is enabled. -/
def cexCfg : AatConfig :=
  { satelliteHomeMin := 1
    servoLowAzim := 1000
    servoHighAzim := 2000
    servoLowElev := 1000
    servoHighElev := 2000
    servoSmooth := 0
    project := true }

/-- Delivery of a five-satellite telemetry packet at a fixed position. -/
def mkFix (st : AatState) : AatState := sendGpsTelemetry 100 100 0 0 1000 5 st

/-- First processed fix at t=1000: latches home. -/
def cexSt1 : AatState := processGps cexCfg ⟨100, 0, 0⟩ 1000 (mkFix (initState cexCfg))

/-- Fix at t=21000 whose azimuth flips by 180 degrees: grows the average
interval and stores a negative rate. -/
def cexSt2 : AatState := processGps cexCfg ⟨100, 180, 0⟩ 21000 (mkFix cexSt1)

/-- Fix at t=41000, azimuth flips back. -/
def cexSt3 : AatState := processGps cexCfg ⟨100, 0, 0⟩ 41000 (mkFix cexSt2)

/-- Fix at t=61000, azimuth flips again; the average interval saturates at
its ceiling. -/
def cexSt4 : AatState := processGps cexCfg ⟨100, 180, 0⟩ 61000 (mkFix cexSt3)

/-- Fix at t=62800: the 1800 ms flip yields the stored rate -10 ms/degree
while the average interval stays large (795000 hundredths of ms). -/
def cexSt5 : AatState := processGps cexCfg ⟨100, 0, 0⟩ 62800 (mkFix cexSt4)

/-- The servo tick at t=68400 run from `cexSt5`: the projector output is
-200 degrees and the azimuth servo is driven below its lower bound. -/
def cexSt6 : AatState := servoUpdate cexCfg cexSt5 68400

/-- The negative-rate scenario is reachable from the initialized state. -/
theorem cexSt5_reachable : Reachable cexCfg cexSt5 :=
  .gps _ _ _ (.telemetry _ _ _ _ _ _ _ (.gps _ _ _ (.telemetry _ _ _ _ _ _ _
    (.gps _ _ _ (.telemetry _ _ _ _ _ _ _ (.gps _ _ _ (.telemetry _ _ _ _ _ _ _
      (.gps _ _ _ (.telemetry _ _ _ _ _ _ _ .init)))))))))

/-- A two-fix scenario with a positive stored rate: home latched at
t=1000 with azimuth 0, second fix at t=2000 with azimuth 90. -/
def posSt2 : AatState := processGps cexCfg ⟨100, 90, 0⟩ 2000 (mkFix cexSt1)

/-- The positive-rate scenario is reachable from the initialized state. -/
theorem posSt2_reachable : Reachable cexCfg posSt2 :=
  .gps _ _ _ (.telemetry _ _ _ _ _ _ _ (.gps _ _ _ (.telemetry _ _ _ _ _ _ _ .init)))

example : cexSt5.gpsAvgUpdateInterval = 795000 := by decide
example : cexSt5.azimMsPerDegree = -10 := by decide
example : cexSt5.targetAzim = 0 ∧ cexSt5.targetDistance = 100 := by decide
example : posSt2.gpsAvgUpdateInterval = 25000 ∧ posSt2.azimMsPerDegree = 11 := by decide

/-- C1 counterexample: a reachable state satisfying every projection
precondition (projection enabled, average interval and rate nonzero,
distance over 3 m) in which the stored rate is negative and
`calcProjectedAzim` returns -200, outside [0,360): the source only adds a
single 360 before its truncated `% 360`. -/
theorem calcProjectedAzim_negative_cex :
    Reachable cexCfg cexSt5 ∧ cexCfg.project = true ∧
    cexSt5.gpsAvgUpdateInterval ≠ 0 ∧ cexSt5.azimMsPerDegree ≠ 0 ∧
    3 < cexSt5.targetDistance ∧ calcProjectedAzim cexCfg cexSt5 68400 = -200 :=
  ⟨cexSt5_reachable, rfl, by decide, by decide, by decide, by decide⟩

/-- C1 (amended): for every reachable state in which azimuth projection is
enabled, the average update interval is non-zero, the angular rate is
non-zero, and the target distance exceeds 3 m, `calcProjectedAzim now`
lies in [0,360) for every `now` whenever the stored rate is positive;
when the stored rate is negative the result is only guaranteed to lie in
the open interval (-360,360) and can be negative. -/
theorem calcProjectedAzim_range (cfg : AatConfig) (st : AatState) (now : Nat)
    (hR : Reachable cfg st) (hp : cfg.project = true)
    (ha : st.gpsAvgUpdateInterval ≠ 0) (hr : st.azimMsPerDegree ≠ 0)
    (hd : 3 < st.targetDistance) :
    (-360 < calcProjectedAzim cfg st now ∧ calcProjectedAzim cfg st now < 360) ∧
    (0 < st.azimMsPerDegree →
      0 ≤ calcProjectedAzim cfg st now ∧ calcProjectedAzim cfg st now < 360) := by
  have hinv := reachable_coreInv cfg st hR
  rw [calcProjectedAzim_active cfg st now hp ha hr hd]
  set e : Nat :=
    constrainN (usub32 now st.gps.lastUpdateMs) 0 (st.gpsAvgUpdateInterval / 100) with he
  have he1 : e ≤ 10000 := by
    have h2 := constrainN_le (usub32 now st.gps.lastUpdateMs)
      (st.gpsAvgUpdateInterval / 100)
    have h3 := hinv.2.2
    omega
  have he2 : toInt32 e = (e : Int) := toInt32_small (by omega)
  set lim : Int :=
    (if -10 < st.azimMsPerDegree ∧ st.azimMsPerDegree < 10 then
      if 0 < st.azimMsPerDegree then 10 else -10
    else st.azimMsPerDegree) with hlim
  refine ⟨tmod360_bounds _, fun hpos => ?_⟩
  have hlimpos : 0 < lim := by
    rw [hlim]
    split_ifs <;> omega
  apply tmod360_nonneg_bounds
  have h1 : 0 ≤ Int.tdiv (toInt32 e) lim := by
    apply Int.tdiv_nonneg _ hlimpos.le
    rw [he2]
    exact Int.natCast_nonneg e
  have h2 : (0 : Int) ≤ (st.targetAzim : Int) := Int.natCast_nonneg _
  omega

/-- C1 witness: the positive-rate scenario meets every hypothesis of the
amended range theorem and its projection lies in [0,360). -/
theorem calcProjectedAzim_range_witness :
    0 < posSt2.azimMsPerDegree ∧
    0 ≤ calcProjectedAzim cexCfg posSt2 2345 ∧
    calcProjectedAzim cexCfg posSt2 2345 < 360 :=
  ⟨by decide,
    (calcProjectedAzim_range cexCfg posSt2 2345 posSt2_reachable rfl
      (by decide) (by decide) (by decide)).2 (by decide)⟩

/-- C8: whenever any projection precondition fails (disabled, zero average
interval, zero rate, or distance at most 3 m) the projector returns the
last committed azimuth unchanged for every `now`, so repeated calls agree. -/
theorem calcProjectedAzim_disabled_identity (cfg : AatConfig) (st : AatState)
    (h : cfg.project = false ∨ st.gpsAvgUpdateInterval = 0 ∨
      st.azimMsPerDegree = 0 ∨ st.targetDistance ≤ 3) :
    (∀ now, calcProjectedAzim cfg st now = (st.targetAzim : Int)) ∧
    (∀ n1 n2, calcProjectedAzim cfg st n1 = calcProjectedAzim cfg st n2) := by
  have hng : ¬(cfg.project = true ∧ st.gpsAvgUpdateInterval ≠ 0 ∧
      st.azimMsPerDegree ≠ 0 ∧ 3 < st.targetDistance) := by
    rintro ⟨h1, h2, h3, h4⟩
    rcases h with h | h | h | h
    · rw [h] at h1
      exact Bool.noConfusion h1
    · exact h2 h
    · exact h3 h
    · omega
  refine ⟨fun now => calcProjectedAzim_inactive cfg st now hng, fun n1 n2 => ?_⟩
  rw [calcProjectedAzim_inactive cfg st n1 hng, calcProjectedAzim_inactive cfg st n2 hng]

/-- C8 witness: with no interval estimate yet, the projector at an
arbitrary time returns the committed azimuth of the initialized state. -/
theorem calcProjectedAzim_disabled_identity_witness :
    calcProjectedAzim cexCfg (initState cexCfg) 999999 =
      ((initState cexCfg).targetAzim : Int) :=
  (calcProjectedAzim_disabled_identity cexCfg (initState cexCfg)
    (Or.inr (Or.inl rfl))).1 999999

/-- C7: on every processed fix after home is set, the azimuth delta is
normalized into [-180,180] and the stored rate is 0 exactly when that
delta is 0 (the division `interval / azimDelta` is never executed with a
zero divisor) and `interval / azimDelta` otherwise. -/
theorem processGps_rate_guard (cfg : AatConfig) (geo : GeoResult) (now : Nat)
    (st : AatState) (hu : st.gps.updated = true) (hh : st.homeSet = true) :
    (-180 ≤ azimuthDelta (geo.azimRaw % 360) st.targetAzim ∧
      azimuthDelta (geo.azimRaw % 360) st.targetAzim ≤ 180) ∧
    (processGps cfg geo now st).azimMsPerDegree =
      (if azimuthDelta (geo.azimRaw % 360) st.targetAzim = 0 then 0
      else Int.tdiv (toInt32 (usub32 now st.gps.lastUpdateMs))
        (azimuthDelta (geo.azimRaw % 360) st.targetAzim)) ∧
    (azimuthDelta (geo.azimRaw % 360) st.targetAzim = 0 →
      (processGps cfg geo now st).azimMsPerDegree = 0) := by
  have hbound : -180 ≤ azimuthDelta (geo.azimRaw % 360) st.targetAzim ∧
      azimuthDelta (geo.azimRaw % 360) st.targetAzim ≤ 180 := by
    unfold azimuthDelta
    omega
  rw [processGps_track cfg geo now st hu hh]
  refine ⟨hbound, rfl, fun h0 => ?_⟩
  simp [h0]

/-- C7 witness: the second fix of the positive-rate scenario has azimuth
delta 90 and stores rate 1000 / 90 = 11 ms per degree. -/
theorem processGps_rate_guard_witness :
    azimuthDelta (90 % 360) (mkFix cexSt1).targetAzim = 90 ∧
    (processGps cexCfg ⟨100, 90, 0⟩ 2000 (mkFix cexSt1)).azimMsPerDegree = 11 := by
  have h := (processGps_rate_guard cexCfg ⟨100, 90, 0⟩ 2000 (mkFix cexSt1)
    (by decide) (by decide)).2.1
  refine ⟨by decide, ?_⟩
  rw [h]
  decide

/-- C10: a fresh fix rejected for low satellite count while home is unset
still consumes the fresh flag and stamps the processing time, and changes
nothing else; the next interval sample is therefore measured from this
rejected fix. -/
theorem processGps_rejected_fix_frame (cfg : AatConfig) (geo : GeoResult)
    (now : Nat) (st : AatState) (hu : st.gps.updated = true)
    (hh : st.homeSet = false) (hs : st.gps.satcnt < cfg.satelliteHomeMin) :
    processGps cfg geo now st =
      { st with gps := { st.gps with updated := false, lastUpdateMs := now % U32 } } ∧
    (processGps cfg geo now st).gps.updated = false ∧
    (processGps cfg geo now st).gps.lastUpdateMs = now % U32 ∧
    (processGps cfg geo now st).homeSet = false ∧
    (processGps cfg geo now st).targetDistance = st.targetDistance ∧
    (processGps cfg geo now st).targetAzim = st.targetAzim ∧
    (processGps cfg geo now st).targetElev = st.targetElev ∧
    (processGps cfg geo now st).azimMsPerDegree = st.azimMsPerDegree ∧
    (processGps cfg geo now st).gpsAvgUpdateInterval = st.gpsAvgUpdateInterval ∧
    (processGps cfg geo now st).servoPosAzim = st.servoPosAzim ∧
    (processGps cfg geo now st).servoPosElev = st.servoPosElev := by
  have h := processGps_rejected cfg geo now st hu hh hs
  rw [h]
  exact ⟨rfl, rfl, rfl, hh, rfl, rfl, rfl, rfl, rfl, rfl, rfl⟩

/-- A rejected-fix scenario: a fresh packet with zero satellites in the
initialized state. -/
def rejSt : AatState := sendGpsTelemetry 7 8 0 0 1005 0 (initState cexCfg)

/-- C10 witness: a concrete rejected fix only clears the flag and stamps
the time. -/
theorem processGps_rejected_fix_frame_witness :
    processGps cexCfg ⟨1, 2, 3⟩ 500 rejSt =
      { rejSt with gps := { rejSt.gps with updated := false, lastUpdateMs := 500 % U32 } } :=
  (processGps_rejected_fix_frame cexCfg ⟨1, 2, 3⟩ 500 rejSt
    (by decide) (by decide) (by decide)).1

/-- C4: while home is unset, a processed fix sets home exactly when its
satellite count reaches the configured minimum; rejected fixes produce no
tracking output; the triggering fix's position becomes home and that fix
updates neither the interval nor the rate estimate; once set, home is
never changed by any later fix. -/
theorem processGps_home_latching (cfg : AatConfig) (geo : GeoResult) (now : Nat)
    (st : AatState) (hu : st.gps.updated = true) (hh : st.homeSet = false) :
    ((processGps cfg geo now st).homeSet = true ↔
      cfg.satelliteHomeMin ≤ st.gps.satcnt) ∧
    (st.gps.satcnt < cfg.satelliteHomeMin →
      (processGps cfg geo now st).targetAzim = st.targetAzim ∧
      (processGps cfg geo now st).targetElev = st.targetElev ∧
      (processGps cfg geo now st).targetDistance = st.targetDistance ∧
      (processGps cfg geo now st).azimMsPerDegree = st.azimMsPerDegree ∧
      (processGps cfg geo now st).gpsAvgUpdateInterval = st.gpsAvgUpdateInterval) ∧
    (cfg.satelliteHomeMin ≤ st.gps.satcnt →
      (processGps cfg geo now st).homeLat = st.gps.lat ∧
      (processGps cfg geo now st).homeLon = st.gps.lon ∧
      (processGps cfg geo now st).homeAlt = st.gps.altitude ∧
      (processGps cfg geo now st).gpsAvgUpdateInterval = st.gpsAvgUpdateInterval ∧
      (processGps cfg geo now st).azimMsPerDegree = st.azimMsPerDegree) ∧
    (∀ st2 : AatState, ∀ geo2 : GeoResult, ∀ n2 : Nat, st2.homeSet = true →
      (processGps cfg geo2 n2 st2).homeSet = true ∧
      (processGps cfg geo2 n2 st2).homeLat = st2.homeLat ∧
      (processGps cfg geo2 n2 st2).homeLon = st2.homeLon ∧
      (processGps cfg geo2 n2 st2).homeAlt = st2.homeAlt) := by
  have hperm : ∀ st2 : AatState, ∀ geo2 : GeoResult, ∀ n2 : Nat,
      st2.homeSet = true →
      (processGps cfg geo2 n2 st2).homeSet = true ∧
      (processGps cfg geo2 n2 st2).homeLat = st2.homeLat ∧
      (processGps cfg geo2 n2 st2).homeLon = st2.homeLon ∧
      (processGps cfg geo2 n2 st2).homeAlt = st2.homeAlt := by
    intro st2 geo2 n2 hset
    by_cases hu2 : st2.gps.updated = false
    · rw [processGps_stale cfg geo2 n2 st2 hu2]
      exact ⟨hset, rfl, rfl, rfl⟩
    · have hu3 : st2.gps.updated = true := by
        revert hu2; cases st2.gps.updated <;> simp
      rw [processGps_track cfg geo2 n2 st2 hu3 hset]
      exact ⟨hset, rfl, rfl, rfl⟩
  by_cases hs : st.gps.satcnt < cfg.satelliteHomeMin
  · rw [processGps_rejected cfg geo now st hu hh hs]
    refine ⟨⟨fun hx => ?_, fun hx => absurd hx (by omega)⟩,
      fun _ => ⟨rfl, rfl, rfl, rfl, rfl⟩,
      fun hx => absurd hx (by omega), hperm⟩
    have hx2 : st.homeSet = true := hx
    rw [hh] at hx2
    exact Bool.noConfusion hx2
  · have hs2 : cfg.satelliteHomeMin ≤ st.gps.satcnt := by omega
    rw [processGps_latch cfg geo now st hu hh hs2]
    exact ⟨⟨fun _ => hs2, fun _ => rfl⟩,
      fun hx => absurd hx (by omega),
      fun _ => ⟨rfl, rfl, rfl, rfl, rfl⟩, hperm⟩

/-- C4 witness: a five-satellite fix against threshold 1 latches home at
its position. -/
theorem processGps_home_latching_witness :
    (processGps cexCfg ⟨100, 0, 0⟩ 1000 (mkFix (initState cexCfg))).homeSet = true ∧
    (processGps cexCfg ⟨100, 0, 0⟩ 1000 (mkFix (initState cexCfg))).homeLat = 100 := by
  have h := processGps_home_latching cexCfg ⟨100, 0, 0⟩ 1000
    (mkFix (initState cexCfg)) (by decide) (by decide)
  refine ⟨h.1.mpr (by decide), ?_⟩
  have h2 := (h.2.2.1 (by decide)).1
  rw [h2]
  decide

/-- The snap branch of the per-axis servo policy. -/
theorem servoAxisUpdate_snap {low high smooth : Nat} {cur newPos : Int}
    (h : 80 < Int.tdiv (((newPos - cur).natAbs : Int) * 100)
      (100 * ((high : Int) - (low : Int)))) :
    servoAxisUpdate low high smooth cur newPos = newPos := by
  unfold servoAxisUpdate
  dsimp only
  rw [if_pos h]

/-- The smoothing branch of the per-axis servo policy. -/
theorem servoAxisUpdate_smooth {low high smooth : Nat} {cur newPos : Int}
    (h : Int.tdiv (((newPos - cur).natAbs : Int) * 100)
      (100 * ((high : Int) - (low : Int))) ≤ 80) :
    servoAxisUpdate low high smooth cur newPos =
      cur + Int.tdiv (newPos - cur) ((smooth : Int) + 1) := by
  unfold servoAxisUpdate
  dsimp only
  rw [if_neg (by omega)]

/-- C5: the per-axis update snaps to the new position when the requested
move exceeds 80 percent of the travel (by the integer test
`|delta|*100/range > 80`) and otherwise advances by exactly
`delta / (smoothingFactor + 1)`; with bounds 1000/2000 and smoothing 3, a
90-percent move snaps in one tick and a 40-percent move advances by
exactly a quarter of the delta. -/
theorem servoAxisUpdate_snap_smooth (low high smooth : Nat) (cur newPos : Int) :
    (80 < Int.tdiv (((newPos - cur).natAbs : Int) * 100)
        (100 * ((high : Int) - (low : Int))) →
      servoAxisUpdate low high smooth cur newPos = newPos) ∧
    (Int.tdiv (((newPos - cur).natAbs : Int) * 100)
        (100 * ((high : Int) - (low : Int))) ≤ 80 →
      servoAxisUpdate low high smooth cur newPos =
        cur + Int.tdiv (newPos - cur) ((smooth : Int) + 1)) ∧
    servoAxisUpdate 1000 2000 3 cur (cur + 90000) = cur + 90000 ∧
    servoAxisUpdate 1000 2000 3 cur (cur - 90000) = cur - 90000 ∧
    servoAxisUpdate 1000 2000 3 cur (cur + 40000) = cur + 10000 ∧
    servoAxisUpdate 1000 2000 3 cur (cur - 40000) = cur - 10000 := by
  refine ⟨fun h => servoAxisUpdate_snap h, fun h => servoAxisUpdate_smooth h,
    ?_, ?_, ?_, ?_⟩
  · exact servoAxisUpdate_snap (by rw [add_sub_cancel_left]; decide)
  · exact servoAxisUpdate_snap (by rw [sub_sub_cancel_left]; decide)
  · rw [servoAxisUpdate_smooth (by rw [add_sub_cancel_left]; decide),
      add_sub_cancel_left]
    congr 1
  · rw [servoAxisUpdate_smooth (by rw [sub_sub_cancel_left]; decide),
      sub_sub_cancel_left]
    have h4 : Int.tdiv (-40000) (((3 : Nat) : Int) + 1) = -10000 := by decide
    rw [h4]
    ring

/-- C5 witness: from position 150000, a 90-percent request snaps to
240000 and a 40-percent request advances by 10000. -/
theorem servoAxisUpdate_snap_smooth_witness :
    servoAxisUpdate 1000 2000 3 150000 240000 = 240000 ∧
    servoAxisUpdate 1000 2000 3 150000 (150000 + 40000) = 150000 + 10000 :=
  ⟨(servoAxisUpdate_snap_smooth 1000 2000 3 150000 240000).1 (by decide),
    (servoAxisUpdate_snap_smooth 1000 2000 3 150000 0).2.2.2.2.1⟩

/-- One step of the interval filter on a constant 1000 ms cadence, before
any saturation: the filter adds a quarter of the remaining gap to 100000. -/
theorem updateGpsInterval_const1000 {avg : Nat} (h : avg < 100000) :
    updateGpsInterval avg 1000 = avg + (100000 - avg) / 4 := by
  have hU : U32 = 4294967296 := rfl
  unfold updateGpsInterval
  dsimp only
  have hs : (1000 * 100 : Nat) % U32 = 100000 := by rw [hU]
  rw [hs, toInt32_small (by omega), toInt32_small (by omega)]
  rw [Int.tdiv_eq_ediv (by omega) (by omega)]
  rw [hU]
  split_ifs <;> omega

/-- The average-interval sequence produced by fixes processed at a
constant true interval of 1000 ms, starting from the zero estimate. -/
def avgSeq : Nat → Nat
  | 0 => 0
  | n + 1 => updateGpsInterval (avgSeq n) 1000

/-- C6: under a constant 1000 ms cadence the average interval is
monotonically non-decreasing and stays strictly below 100000 hundredths
of ms, and for every input interval one filter update never exceeds the
1,000,000 ceiling. -/
theorem updateGpsInterval_convergence :
    (∀ n, avgSeq n ≤ avgSeq (n + 1)) ∧
    (∀ n, avgSeq n < 100000) ∧
    (∀ avg interval, updateGpsInterval avg interval ≤ 1000000) := by
  have hlt : ∀ n, avgSeq n < 100000 := by
    intro n
    induction n with
    | zero => decide
    | succ n ih =>
        rw [show avgSeq (n + 1) = updateGpsInterval (avgSeq n) 1000 from rfl,
          updateGpsInterval_const1000 ih]
        omega
  refine ⟨fun n => ?_, hlt, fun avg interval => updateGpsInterval_le avg interval⟩
  rw [show avgSeq (n + 1) = updateGpsInterval (avgSeq n) 1000 from rfl,
    updateGpsInterval_const1000 (hlt n)]
  omega

/-- The Arduino linear map sends [0, n] into [L, H] when L ≤ H. -/
theorem amap_in_range {t n L H : Int} (hn : 0 < n) (hLH : L ≤ H) (h0 : 0 ≤ t)
    (ht : t ≤ n) : L ≤ amap t 0 n L H ∧ amap t 0 n L H ≤ H := by
  unfold amap
  rw [sub_zero, sub_zero]
  have hHL : (0 : Int) ≤ H - L := by omega
  constructor
  · have h1 := Int.tdiv_nonneg (mul_nonneg h0 hHL) hn.le
    omega
  · have h1 : Int.tdiv (t * (H - L)) n ≤ H - L := by
      rw [Int.tdiv_eq_ediv (mul_nonneg h0 hHL) hn.le]
      have h2 : t * (H - L) ≤ n * (H - L) :=
        mul_le_mul_of_nonneg_right ht (by omega)
      calc t * (H - L) / n ≤ n * (H - L) / n := Int.ediv_le_ediv hn h2
        _ = H - L := Int.mul_ediv_cancel_left _ (by omega)
    omega

/-- Both branches of the per-axis policy keep the position between bounds
that already contain the current and the requested position. -/
theorem servoAxisUpdate_in_range {low high smooth : Nat} {cur newPos : Int}
    (h1 : 100 * (low : Int) ≤ cur) (h2 : cur ≤ 100 * (high : Int))
    (h3 : 100 * (low : Int) ≤ newPos) (h4 : newPos ≤ 100 * (high : Int)) :
    100 * (low : Int) ≤ servoAxisUpdate low high smooth cur newPos ∧
      servoAxisUpdate low high smooth cur newPos ≤ 100 * (high : Int) := by
  unfold servoAxisUpdate
  dsimp only
  split_ifs with h
  · exact ⟨h3, h4⟩
  · have hk : (0 : Int) < (smooth : Int) + 1 := by omega
    rcases le_or_lt 0 (newPos - cur) with hd | hd
    · have hb := tdiv_between_of_nonneg hd hk
      omega
    · have hb := tdiv_between_of_nonpos hd.le hk
      omega

/-- The spec invariant on actuator state: each axis position lies within
its configured bounds scaled by 100. -/
def ServoInRange (cfg : AatConfig) (st : AatState) : Prop :=
  100 * (cfg.servoLowAzim : Int) ≤ st.servoPosAzim ∧
  st.servoPosAzim ≤ 100 * (cfg.servoHighAzim : Int) ∧
  100 * (cfg.servoLowElev : Int) ≤ st.servoPosElev ∧
  st.servoPosElev ≤ 100 * (cfg.servoHighElev : Int)

/-- C2 counterexample: a reachable state (after the negative-rate servo
tick at t=68400) whose azimuth servo position 94500 is below the scaled
lower bound 100000: the projected azimuth -200 maps below the low end. -/
theorem servoPos_bounds_violation :
    Reachable cexCfg cexSt6 ∧
    cexSt6.servoPosAzim < 100 * (cexCfg.servoLowAzim : Int) :=
  ⟨.servo _ _ cexSt5_reachable, by decide⟩

/-- C2 (amended): with valid bounds on both axes, the servo positions of
the initialized state sit at the scaled midpoints inside the bounds, and a
servo tick preserves the bounds whenever the projected azimuth is at least
-180 degrees (always true for a nonnegative rate); a projection below
-180, reachable with a negative rate, can break the invariant. -/
theorem servoPos_bounds_amended (cfg : AatConfig)
    (hA : cfg.servoLowAzim ≤ cfg.servoHighAzim)
    (hE : cfg.servoLowElev ≤ cfg.servoHighElev) :
    ServoInRange cfg (initState cfg) ∧
    (∀ st now, ServoInRange cfg st → st.targetElev ≤ 90 →
      -180 ≤ calcProjectedAzim cfg st now →
      ServoInRange cfg (servoUpdate cfg st now)) := by
  constructor
  · unfold ServoInRange initState
    refine ⟨?_, ?_, ?_, ?_⟩ <;> dsimp only <;> omega
  · intro st now hsr helev hproj
    by_cases hg : usub32 now st.lastServoUpdateMs < 20
    · rw [servoUpdate_gated cfg st now hg]
      exact hsr
    · rw [servoUpdate_run cfg st now hg]
      obtain ⟨s1, s2, s3, s4⟩ := hsr
      set mA : Int := amap (Int.tmod (calcProjectedAzim cfg st now + 180) 360)
        0 360 (cfg.servoLowAzim : Int) (cfg.servoHighAzim : Int) with hmAdef
      set mE : Int := amap ((st.targetElev : Int)) 0 90
        (cfg.servoLowElev : Int) (cfg.servoHighElev : Int) with hmEdef
      have htA := tmod360_nonneg_bounds (calcProjectedAzim cfg st now + 180)
        (by omega)
      have hmA : (cfg.servoLowAzim : Int) ≤ mA ∧ mA ≤ (cfg.servoHighAzim : Int) := by
        rw [hmAdef]
        exact amap_in_range (by omega) (by exact_mod_cast hA) htA.1 (by omega)
      have hmE : (cfg.servoLowElev : Int) ≤ mE ∧ mE ≤ (cfg.servoHighElev : Int) := by
        rw [hmEdef]
        exact amap_in_range (by omega) (by exact_mod_cast hE)
          (Int.natCast_nonneg _) (by exact_mod_cast helev)
      have hA1 := @servoAxisUpdate_in_range cfg.servoLowAzim cfg.servoHighAzim
        cfg.servoSmooth st.servoPosAzim (100 * mA) s1 s2 (by omega) (by omega)
      have hE1 := @servoAxisUpdate_in_range cfg.servoLowElev cfg.servoHighElev
        cfg.servoSmooth st.servoPosElev (100 * mE) s3 s4 (by omega) (by omega)
      exact ⟨hA1.1, hA1.2, hE1.1, hE1.2⟩

/-- C2 witness: with the scenario configuration the initialized state is
in range and stays in range across a servo tick at t=100. -/
theorem servoPos_bounds_amended_witness :
    ServoInRange cexCfg (initState cexCfg) ∧
    ServoInRange cexCfg (servoUpdate cexCfg (initState cexCfg) 100) := by
  have h := servoPos_bounds_amended cexCfg (by decide) (by decide)
  exact ⟨h.1, h.2 (initState cexCfg) 100 h.1 (by decide) (by decide)⟩

/-- A state with a 10-second average-interval estimate and processing
timestamp 0, used by the staleness-percentage scenarios. -/
def pctSt : AatState := { initState cexCfg with gpsAvgUpdateInterval := 1000000 }

/-- C9 counterexample: at 429497 ms since the last fix the `uint32_t`
product 429497 * 10000 wraps to 2704, so the code reports 0 percent where
the exact-arithmetic formula of the claim clamps 4294 to 100. -/
theorem calcGpsIntervalPct_overflow_cex :
    calcGpsIntervalPct pctSt 429497 = 0 ∧
    constrainN (usub32 429497 pctSt.gps.lastUpdateMs * 10000
      / pctSt.gpsAvgUpdateInterval) 0 100 = 100 ∧
    (0 : Nat) ≠ 100 :=
  ⟨by decide, by decide, by decide⟩

/-- C9 (amended): the staleness percentage is 0 without an interval
estimate, otherwise it is `clamp(elapsed * 10000 / avg, 0, 100)` with the
product reduced modulo 2^32 as `uint32_t` arithmetic does; the result
always lies in [0,100], and the claimed exact-arithmetic formula is
returned exactly when the product does not overflow (elapsed at most
429496 ms). -/
theorem calcGpsIntervalPct_amended (st : AatState) (now : Nat) :
    (st.gpsAvgUpdateInterval = 0 → calcGpsIntervalPct st now = 0) ∧
    (st.gpsAvgUpdateInterval ≠ 0 → calcGpsIntervalPct st now =
      constrainN (usub32 now st.gps.lastUpdateMs * 10000 % U32
        / st.gpsAvgUpdateInterval) 0 100) ∧
    calcGpsIntervalPct st now ≤ 100 ∧
    (usub32 now st.gps.lastUpdateMs * 10000 < U32 →
      st.gpsAvgUpdateInterval ≠ 0 →
      calcGpsIntervalPct st now =
        constrainN (usub32 now st.gps.lastUpdateMs * 10000
          / st.gpsAvgUpdateInterval) 0 100) := by
  unfold calcGpsIntervalPct
  by_cases h : st.gpsAvgUpdateInterval ≠ 0
  · rw [if_pos h]
    refine ⟨fun h0 => absurd h0 h, fun _ => rfl, constrainN_le _ _,
      fun hsmall _ => ?_⟩
    rw [Nat.mod_eq_of_lt hsmall]
  · rw [if_neg h]
    push_neg at h
    exact ⟨fun _ => rfl, fun hc => absurd h hc, by omega, fun _ hc => absurd h hc⟩

/-- C9 witness: one second after a fix with the 10-second estimate, the
non-overflowing formula yields 10 percent. -/
theorem calcGpsIntervalPct_amended_witness :
    calcGpsIntervalPct pctSt 1000 =
      constrainN (usub32 1000 pctSt.gps.lastUpdateMs * 10000
        / pctSt.gpsAvgUpdateInterval) 0 100 ∧
    calcGpsIntervalPct pctSt 1000 ≤ 100 :=
  ⟨(calcGpsIntervalPct_amended pctSt 1000).2.2.2 (by decide) (by decide),
    (calcGpsIntervalPct_amended pctSt 1000).2.2.1⟩
